import Mathlib

/-!
Verification of the GICv3 driver in `src/gic.rs` (ARM Cortex-R52 support crate).

The driver manipulates three hardware blocks through fixed memory-mapped
addresses (distributor GICD, redistributor GICR) and coprocessor registers
(CPU interface, via `mcr`/`mcrr` instructions).  We embed the driver
shallowly: the memory-mapped register file becomes an explicit state
(`GicState`) whose read/write functions implement the hardware's register
semantics (write-1-to-set for `ISENABLER`, write-1-to-clear for `ICENABLER`
and `ICPENDR`), every driver operation becomes a pure function on that state
which additionally returns the list of bus/coprocessor events it performs,
and `Gic.init`'s busy-wait on `GICR_WAKER` is driven by an explicit list of
device-supplied read values (an empty or never-clearing list models the
spin never terminating, giving `none`).  All machine integers are `Nat`;
the driver's `u32` arithmetic (`|`, `&`, `!x`, `<<`) is mirrored with
`|||`, `&&&`, `0xFFFFFFFF ^^^ x`, `<<<`, which agree with the 32-bit
operations on the in-range values the driver produces.
-/

-- ==================== Register addresses (src/gic.rs lines 10-55) ====

/-- GIC Distributor base address (`GICD_BASE`). -/
def GICD_BASE : Nat := 0xAF000000

/-- GICD Control Register. -/
def GICD_CTLR : Nat := GICD_BASE + 0x0000

/-- GICD Type Register. -/
def GICD_TYPER : Nat := GICD_BASE + 0x0004

/-- GICD Interrupt Group Register 0. -/
def GICD_IGROUPR0 : Nat := GICD_BASE + 0x0080

/-- GICD Interrupt Priority Registers base (SGI 0-15). -/
def GICD_IPRIORITYR : Nat := GICD_BASE + 0x0400

/-- GIC Redistributor base address (`GICR_BASE`). -/
def GICR_BASE : Nat := 0xAF100000

/-- GICR Waker Register. -/
def GICR_WAKER : Nat := GICR_BASE + 0x0014

/-- GICR Interrupt Group Register 0 (SGI frame). -/
def GICR_IGROUPR0 : Nat := GICR_BASE + 0x10000 + 0x0080

/-- GICR Interrupt Set-Enable Register 0 (SGI frame). -/
def GICR_ISENABLER0 : Nat := GICR_BASE + 0x10000 + 0x0100

/-- GICR Interrupt Clear-Enable Register 0 (SGI frame). -/
def GICR_ICENABLER0 : Nat := GICR_BASE + 0x10000 + 0x0180

/-- GICR Interrupt Clear-Pending Register 0 (SGI frame); the source
computes this address inline in `clear_sgi_pending`. -/
def GICR_ICPENDR0 : Nat := GICR_BASE + 0x10000 + 0x0280

/-- GICR Interrupt Priority Registers base (SGI frame). -/
def GICR_IPRIORITYR : Nat := GICR_BASE + 0x10000 + 0x0400

-- ==================== Constants (src/gic.rs lines 57-83) ====

/-- Enable Group 0 interrupts (bit 0 of `GICD_CTLR`). -/
def GICD_CTLR_ENABLE_GRP0 : Nat := 1 <<< 0

/-- Enable Group 1 interrupts (bit 1 of `GICD_CTLR`). -/
def GICD_CTLR_ENABLE_GRP1 : Nat := 1 <<< 1

/-- Processor-sleep request bit in `GICR_WAKER`. -/
def GICR_WAKER_PROCESSOR_SLEEP : Nat := 1 <<< 1

/-- Children-asleep status bit in `GICR_WAKER`. -/
def GICR_WAKER_CHILDREN_ASLEEP : Nat := 1 <<< 2

/-- SGI target-list-filter field shift. -/
def SGIR_TARGET_LIST_FILTER_SHIFT : Nat := 24

/-- SGI filter: use target list. -/
def SGI_TARGET_LIST : Nat := 0x0 <<< SGIR_TARGET_LIST_FILTER_SHIFT

/-- SGI filter: all except self. -/
def SGI_TARGET_ALL_EXCEPT_SELF : Nat := 0x1 <<< SGIR_TARGET_LIST_FILTER_SHIFT

/-- SGI filter: self only. -/
def SGI_TARGET_SELF : Nat := 0x2 <<< SGIR_TARGET_LIST_FILTER_SHIFT

/-- Default priority for SGIs (`DEFAULT_SGI_PRIORITY`, 0xA0). -/
def DEFAULT_SGI_PRIORITY : Nat := 0xA0

-- ==================== Device state and register semantics ====

/-- The registers of the GIC the driver touches.  Each field holds the
current architectural value of one register (or one bank of registers,
indexed by word number).  `gicrEnable` and `gicrPending` are the
underlying enable/pending bit arrays of the redistributor's 32 private
interrupts; the `ISENABLER0`/`ICENABLER0`/`ICPENDR0` addresses are
different *views* of them (see `writeReg`). -/
structure GicState where
  gicdCtlr : Nat
  gicdTyper : Nat
  gicdIgroupr0 : Nat
  gicdPriority : Nat → Nat
  gicrWaker : Nat
  gicrIgroupr0 : Nat
  gicrEnable : Nat
  gicrPending : Nat
  gicrPriority : Nat → Nat

/-- A bus or coprocessor event performed by the driver.
`wr a v` / `rd a v` are `write_volatile`/`read_volatile` of value `v`
at address `a`; `sysw crn crm op2 v` is `mcr p15, 0, v, crn, crm, op2`
(a CPU-interface system-register write); `sgi1r lo hi` is the
`mcrr p15, 0, lo, hi, c12` 64-bit write to ICC_SGI1R; `isb` is the
synchronization barrier instruction. -/
inductive Ev where
  | wr (a v : Nat)
  | rd (a v : Nat)
  | sysw (crn crm op2 v : Nat)
  | sgi1r (lo hi : Nat)
  | isb
deriving DecidableEq, Repr

/-- Architectural read of the memory-mapped register at address `a`.
`ISENABLER0` and `ICENABLER0` both read back the enable bit array,
`ICPENDR0` reads the pending bit array; unmapped addresses read as 0. -/
def readReg (s : GicState) (a : Nat) : Nat :=
  if a = GICD_CTLR then s.gicdCtlr
  else if a = GICD_TYPER then s.gicdTyper
  else if a = GICD_IGROUPR0 then s.gicdIgroupr0
  else if GICD_IPRIORITYR ≤ a ∧ a < GICD_IPRIORITYR + 16 then
    s.gicdPriority ((a - GICD_IPRIORITYR) / 4)
  else if a = GICR_WAKER then s.gicrWaker
  else if a = GICR_IGROUPR0 then s.gicrIgroupr0
  else if a = GICR_ISENABLER0 then s.gicrEnable
  else if a = GICR_ICENABLER0 then s.gicrEnable
  else if a = GICR_ICPENDR0 then s.gicrPending
  else if GICR_IPRIORITYR ≤ a ∧ a < GICR_IPRIORITYR + 32 then
    s.gicrPriority ((a - GICR_IPRIORITYR) / 4)
  else 0

/-- Architectural effect of a memory-mapped write of `v` at address `a`,
following the GICv3 register semantics: `ISENABLER0` is write-1-to-set
and `ICENABLER0` write-1-to-clear on the enable bit array, `ICPENDR0`
is write-1-to-clear on the pending bit array, the remaining mapped
registers store the written value, and unmapped writes are ignored. -/
def writeReg (s : GicState) (a v : Nat) : GicState :=
  if a = GICD_CTLR then { s with gicdCtlr := v }
  else if a = GICD_IGROUPR0 then { s with gicdIgroupr0 := v }
  else if GICD_IPRIORITYR ≤ a ∧ a < GICD_IPRIORITYR + 16 then
    { s with gicdPriority :=
        fun k => if k = (a - GICD_IPRIORITYR) / 4 then v else s.gicdPriority k }
  else if a = GICR_WAKER then { s with gicrWaker := v }
  else if a = GICR_IGROUPR0 then { s with gicrIgroupr0 := v }
  else if a = GICR_ISENABLER0 then { s with gicrEnable := s.gicrEnable ||| v }
  else if a = GICR_ICENABLER0 then
    { s with gicrEnable := s.gicrEnable &&& (0xFFFFFFFF ^^^ v) }
  else if a = GICR_ICPENDR0 then
    { s with gicrPending := s.gicrPending &&& (0xFFFFFFFF ^^^ v) }
  else if GICR_IPRIORITYR ≤ a ∧ a < GICR_IPRIORITYR + 32 then
    { s with gicrPriority :=
        fun k => if k = (a - GICR_IPRIORITYR) / 4 then v else s.gicrPriority k }
  else s

namespace Gic

-- ==================== SGI operations (src/gic.rs lines 245-523) ====

/-- `Gic::enable_sgi` (src/gic.rs lines 245-257): range-check, then
read-modify-write `GICR_ISENABLER0` with the SGI's bit ORed in. -/
def enable_sgi (sgi_id : Nat) (s : GicState) : GicState × List Ev :=
  if sgi_id > 15 then (s, [])
  else
    let mask := 1 <<< sgi_id
    let current := readReg s GICR_ISENABLER0
    (writeReg s GICR_ISENABLER0 (current ||| mask),
     [Ev.rd GICR_ISENABLER0 current, Ev.wr GICR_ISENABLER0 (current ||| mask)])

/-- `Gic::disable_sgi` (src/gic.rs lines 337-348): range-check, then
write the SGI's bit to `GICR_ICENABLER0`. -/
def disable_sgi (sgi_id : Nat) (s : GicState) : GicState × List Ev :=
  if sgi_id > 15 then (s, [])
  else
    let mask := 1 <<< sgi_id
    (writeReg s GICR_ICENABLER0 mask, [Ev.wr GICR_ICENABLER0 mask])

/-- `Gic::clear_sgi_pending` (src/gic.rs lines 279-287): range-check,
then write the SGI's bit to the clear-pending register at
`GICR_BASE + 0x10000 + 0x0280`. -/
def clear_sgi_pending (sgi_id : Nat) (s : GicState) : GicState × List Ev :=
  if sgi_id > 15 then (s, [])
  else
    (writeReg s (GICR_BASE + 0x10000 + 0x0280) (1 <<< sgi_id),
     [Ev.wr (GICR_BASE + 0x10000 + 0x0280) (1 <<< sgi_id)])

/-- `Gic::clear_pending_sgi` (src/gic.rs lines 351-361): the source's
second "clear pending" routine; after the range check it writes the
SGI's bit to `GICR_ICENABLER0` (the clear-enable register). -/
def clear_pending_sgi (sgi_id : Nat) (s : GicState) : GicState × List Ev :=
  if sgi_id > 15 then (s, [])
  else
    let mask := 1 <<< sgi_id
    (writeReg s GICR_ICENABLER0 mask, [Ev.wr GICR_ICENABLER0 mask])

/-- `Gic::set_sgi_priority` (src/gic.rs lines 472-491): range-check,
then read-modify-write byte lane `sgi_id % 4` of redistributor priority
register `sgi_id / 4`. -/
def set_sgi_priority (sgi_id priority : Nat) (s : GicState) : GicState × List Ev :=
  if sgi_id > 15 then (s, [])
  else
    let reg_index := sgi_id / 4
    let byte_offset := (sgi_id % 4) * 8
    let priority_reg := GICR_IPRIORITYR + 4 * reg_index
    let current := readReg s priority_reg
    let mask := 0xFF <<< byte_offset
    let current2 := (current &&& (0xFFFFFFFF ^^^ mask)) ||| (priority <<< byte_offset)
    (writeReg s priority_reg current2,
     [Ev.rd priority_reg current, Ev.wr priority_reg current2])

/-- `Gic::is_sgi_enabled` (src/gic.rs lines 514-523): range-check, then
test the SGI's bit in `GICR_ISENABLER0`. -/
def is_sgi_enabled (sgi_id : Nat) (s : GicState) : Bool :=
  if sgi_id > 15 then false
  else decide (readReg s GICR_ISENABLER0 &&& (1 <<< sgi_id) ≠ 0)

/-- `Gic::read_typer` (src/gic.rs lines 495-497). -/
def read_typer (s : GicState) : Nat :=
  readReg s GICD_TYPER

/-- `Gic::get_num_interrupts` (src/gic.rs lines 500-505):
`(typer & 0x1F + 1) * 32` with the ITLinesNumber field in bits [4:0]. -/
def get_num_interrupts (s : GicState) : Nat :=
  let typer := read_typer s
  let it_lines := typer &&& 0x1F
  (it_lines + 1) * 32

/-- `Gic::send_sgi` (src/gic.rs lines 382-409): range-check, map the
filter to the IRM bit (`1 << 24` for all-except-self, else 0), pack
`irm | target_list | (sgi_id << 24)` and issue it through the 64-bit
ICC_SGI1R write with upper word 0.  Returns the two words written, or
`none` when the range check rejects the id. -/
def send_sgi (sgi_id target_list filter : Nat) : Option (Nat × Nat) :=
  if sgi_id > 15 then none
  else
    let irm := if filter = SGI_TARGET_ALL_EXCEPT_SELF then 1 <<< 24 else 0
    let val := irm ||| target_list ||| (sgi_id <<< 24)
    some (val, 0)

/-- `Gic::send_sgi_to_cpu` (src/gic.rs lines 416-423). -/
def send_sgi_to_cpu (sgi_id cpu_id : Nat) : Option (Nat × Nat) :=
  if cpu_id > 15 then none
  else
    let target_mask := 1 <<< cpu_id
    send_sgi sgi_id target_mask SGI_TARGET_LIST

/-- `Gic::send_sgi_to_all_except_self` (src/gic.rs lines 429-431). -/
def send_sgi_to_all_except_self (sgi_id : Nat) : Option (Nat × Nat) :=
  send_sgi sgi_id 0 SGI_TARGET_ALL_EXCEPT_SELF

/-- `Gic::send_sgi_to_self` (src/gic.rs lines 438-465): range-check,
then issue the ICC_SGI1R word `(target_list << 0) | (sgi_id << 24)`
with the hard-coded target list `0b1` (bit 0, CPU 0) and upper word 0.
The function takes no core identifier: the word does not depend on
which core executes the call. -/
def send_sgi_to_self (sgi_id : Nat) : Option (Nat × Nat) :=
  if sgi_id > 15 then none
  else
    let target_list := 0b1
    let val := (target_list <<< 0) ||| (sgi_id <<< 24)
    some (val, 0)

-- ==================== Initialization (src/gic.rs lines 98-213) ====

/-- Distributor part of `Gic::init` (src/gic.rs lines 100-122): disable
the distributor, read-modify-write `GICD_IGROUPR0` to all-ones, then
write the uniform default priority to the four SGI priority registers. -/
def initDist (s : GicState) : GicState × List Ev :=
  let s1 := writeReg s GICD_CTLR 0
  let igroupr := readReg s1 GICD_IGROUPR0
  let igroupr2 := igroupr ||| 0xFFFFFFFF
  let s2 := writeReg s1 GICD_IGROUPR0 igroupr2
  let prio := (DEFAULT_SGI_PRIORITY <<< 24) ||| (DEFAULT_SGI_PRIORITY <<< 16)
      ||| (DEFAULT_SGI_PRIORITY <<< 8) ||| DEFAULT_SGI_PRIORITY
  let s3 := writeReg s2 (GICD_IPRIORITYR + 4 * 0) prio
  let s4 := writeReg s3 (GICD_IPRIORITYR + 4 * 1) prio
  let s5 := writeReg s4 (GICD_IPRIORITYR + 4 * 2) prio
  let s6 := writeReg s5 (GICD_IPRIORITYR + 4 * 3) prio
  (s6,
   [Ev.wr GICD_CTLR 0, Ev.rd GICD_IGROUPR0 igroupr, Ev.wr GICD_IGROUPR0 igroupr2,
    Ev.wr (GICD_IPRIORITYR + 4 * 0) prio, Ev.wr (GICD_IPRIORITYR + 4 * 1) prio,
    Ev.wr (GICD_IPRIORITYR + 4 * 2) prio, Ev.wr (GICD_IPRIORITYR + 4 * 3) prio])

/-- The busy-wait of `Gic::init` (src/gic.rs lines 131-134):
`while (read_volatile(GICR_WAKER) & GICR_WAKER_CHILDREN_ASLEEP) != 0 {}`.
Successive reads of `GICR_WAKER` observe the device-supplied values in
`ws`; the loop exits at the first value with the children-asleep bit
clear, returning the reads performed and the unconsumed values.  If no
such value arrives the spin never terminates, modelled by `none`. -/
def spinWait : List Nat → Option (List Ev × List Nat)
  | [] => none
  | w :: ws =>
    if w &&& GICR_WAKER_CHILDREN_ASLEEP ≠ 0 then
      match spinWait ws with
      | none => none
      | some (evs, rest) => some (Ev.rd GICR_WAKER w :: evs, rest)
    else
      some ([Ev.rd GICR_WAKER w], ws)

/-- Redistributor part of `Gic::init` after the wake handshake
(src/gic.rs lines 136-174): group-assign all 32 private interrupts,
enable all of them (`0xFFFF_FFFF` to `GICR_ISENABLER0`), write default
priorities, then enable/group/prioritize the timer interrupt (id 30). -/
def initRedist (s : GicState) : GicState × List Ev :=
  let g := readReg s GICR_IGROUPR0
  let g2 := g ||| 0xFFFFFFFF
  let s1 := writeReg s GICR_IGROUPR0 g2
  let s2 := writeReg s1 GICR_ISENABLER0 0xFFFFFFFF
  let prio := (DEFAULT_SGI_PRIORITY <<< 24) ||| (DEFAULT_SGI_PRIORITY <<< 16)
      ||| (DEFAULT_SGI_PRIORITY <<< 8) ||| DEFAULT_SGI_PRIORITY
  let s3 := writeReg s2 (GICR_IPRIORITYR + 4 * 0) prio
  let s4 := writeReg s3 (GICR_IPRIORITYR + 4 * 1) prio
  let s5 := writeReg s4 (GICR_IPRIORITYR + 4 * 2) prio
  let s6 := writeReg s5 (GICR_IPRIORITYR + 4 * 3) prio
  let timer_mask := 1 <<< (30 % 32)
  let s7 := writeReg s6 GICR_ISENABLER0 timer_mask
  let gt := readReg s7 GICR_IGROUPR0
  let gt2 := gt ||| timer_mask
  let s8 := writeReg s7 GICR_IGROUPR0 gt2
  let tpReg := GICR_IPRIORITYR + 4 * (30 / 4)
  let byte_offset := (30 % 4) * 8
  let cur := readReg s8 tpReg
  let mask := 0xFF <<< byte_offset
  let cur2 := (cur &&& (0xFFFFFFFF ^^^ mask)) ||| (DEFAULT_SGI_PRIORITY <<< byte_offset)
  let s9 := writeReg s8 tpReg cur2
  (s9,
   [Ev.rd GICR_IGROUPR0 g, Ev.wr GICR_IGROUPR0 g2,
    Ev.wr GICR_ISENABLER0 0xFFFFFFFF,
    Ev.wr (GICR_IPRIORITYR + 4 * 0) prio, Ev.wr (GICR_IPRIORITYR + 4 * 1) prio,
    Ev.wr (GICR_IPRIORITYR + 4 * 2) prio, Ev.wr (GICR_IPRIORITYR + 4 * 3) prio,
    Ev.wr GICR_ISENABLER0 timer_mask,
    Ev.rd GICR_IGROUPR0 gt, Ev.wr GICR_IGROUPR0 gt2,
    Ev.rd tpReg cur, Ev.wr tpReg cur2])

/-- The CPU-interface configuration instructions of `Gic::init`
(src/gic.rs lines 176-208), in program order.  Coprocessor register
encodings are taken verbatim from the `asm!` strings:
`c12,c12,4` = ICC_CTLR (`write_icc_ctlr`, each call followed by `isb`),
`c4,c6,0` = ICC_PMR, `c12,c12,7` = ICC_IGRPEN1, `c12,c12,5` = ICC_SRE. -/
def cpuIfEvents : List Ev :=
  [Ev.sysw 12 12 4 0, Ev.isb,
   Ev.sysw 4 6 0 0xFF, Ev.isb,
   Ev.sysw 12 12 7 0b111, Ev.isb,
   Ev.sysw 4 6 0 0xFF,
   Ev.sysw 12 12 7 1,
   Ev.sysw 12 12 5 0x7,
   Ev.sysw 4 6 0 0xFF,
   Ev.sysw 12 12 7 1, Ev.isb,
   Ev.sysw 12 12 4 0, Ev.isb]

/-- `Gic::init` (src/gic.rs lines 98-213): distributor configuration,
redistributor wake handshake (first `GICR_WAKER` read, cleared sleep
bit written back, then the busy-wait), redistributor configuration,
CPU-interface configuration, and finally the distributor global enable
write `GICD_CTLR := GRP0 | GRP1`.  The result is the final register
state together with the full event trace, or `none` when the wake
handshake never completes. -/
def init (s : GicState) : List Nat → Option (GicState × List Ev)
  | [] => none
  | w0 :: ws1 =>
    let d := initDist s
    let waker := w0 &&& (0xFFFFFFFF ^^^ GICR_WAKER_PROCESSOR_SLEEP)
    let s2 := writeReg d.1 GICR_WAKER waker
    match spinWait ws1 with
    | none => none
    | some (sevs, _) =>
      let r := initRedist s2
      let s3 := writeReg r.1 GICD_CTLR (GICD_CTLR_ENABLE_GRP0 ||| GICD_CTLR_ENABLE_GRP1)
      some (s3,
        d.2 ++ (Ev.rd GICR_WAKER w0 :: Ev.wr GICR_WAKER waker ::
          (sevs ++ (r.2 ++ (cpuIfEvents ++
            [Ev.wr GICD_CTLR (GICD_CTLR_ENABLE_GRP0 ||| GICD_CTLR_ENABLE_GRP1)])))))

end Gic

-- ==================== Trace predicates ====

/-- A write that sets either distributor global-enable bit: a nonzero
value written to `GICD_CTLR`. -/
def isDistEnableWrite : Ev → Bool
  | Ev.wr a v => decide (a = GICD_CTLR ∧ v ≠ 0)
  | _ => false

/-- A read of `GICR_WAKER` observing the children-asleep status bit
clear, i.e. completion of the wake handshake. -/
def isWakeClearRead : Ev → Bool
  | Ev.rd a v => decide (a = GICR_WAKER ∧ v &&& GICR_WAKER_CHILDREN_ASLEEP = 0)
  | _ => false

/-- An all-zero register state. -/
def zeroState : GicState :=
  { gicdCtlr := 0, gicdTyper := 0, gicdIgroupr0 := 0, gicdPriority := fun _ => 0,
    gicrWaker := 0, gicrIgroupr0 := 0, gicrEnable := 0, gicrPending := 0,
    gicrPriority := fun _ => 0 }

-- ==================== Bit-level helper lemmas ====================

lemma and_one_shift_ne_zero (x n : Nat) : x &&& (1 <<< n) ≠ 0 ↔ x.testBit n := by
  rw [Nat.shiftLeft_eq, one_mul, Nat.and_two_pow]
  cases h : x.testBit n <;> simp

lemma and_one_shift_eq_zero (x n : Nat) (h : x.testBit n = false) :
    x &&& (1 <<< n) = 0 := by
  rw [Nat.shiftLeft_eq, one_mul, Nat.and_two_pow, h]
  simp

lemma and_mask32_clear_testBit (x n : Nat) (hn : n < 32) :
    (x &&& (0xFFFFFFFF ^^^ (1 <<< n))).testBit n = false := by
  have h32 : (0xFFFFFFFF : Nat) = 2 ^ 32 - 1 := by norm_num
  rw [Nat.testBit_and, h32, Nat.testBit_xor, Nat.testBit_two_pow_sub_one,
    Nat.shiftLeft_eq, one_mul, Nat.testBit_two_pow_self]
  simp [hn]

lemma or_mask32_saturate (e t : Nat) :
    ((e ||| 0xFFFFFFFF) ||| t) &&& 0xFFFFFFFF = 0xFFFFFFFF := by
  refine Nat.eq_of_testBit_eq fun i => ?_
  have h32 : (0xFFFFFFFF : Nat) = 2 ^ 32 - 1 := by norm_num
  rw [h32]
  simp only [Nat.testBit_and, Nat.testBit_or, Nat.testBit_two_pow_sub_one]
  by_cases hi : i < 32 <;> simp [hi]

-- ==================== Register-level helper lemmas ====================

lemma readReg_isenabler (s : GicState) : readReg s GICR_ISENABLER0 = s.gicrEnable := by
  simp [readReg, GICD_CTLR, GICD_TYPER, GICD_IGROUPR0, GICD_IPRIORITYR,
    GICR_WAKER, GICR_IGROUPR0, GICR_ISENABLER0, GICD_BASE, GICR_BASE]

lemma readReg_typer (s : GicState) : readReg s GICD_TYPER = s.gicdTyper := by
  simp [readReg, GICD_CTLR, GICD_TYPER, GICD_BASE]

lemma writeReg_isenabler (s : GicState) (v : Nat) :
    writeReg s GICR_ISENABLER0 v = { s with gicrEnable := s.gicrEnable ||| v } := by
  simp [writeReg, GICD_CTLR, GICD_IGROUPR0, GICD_IPRIORITYR,
    GICR_WAKER, GICR_IGROUPR0, GICR_ISENABLER0, GICD_BASE, GICR_BASE]

lemma writeReg_icenabler (s : GicState) (v : Nat) :
    writeReg s GICR_ICENABLER0 v
      = { s with gicrEnable := s.gicrEnable &&& (0xFFFFFFFF ^^^ v) } := by
  simp [writeReg, GICD_CTLR, GICD_IGROUPR0, GICD_IPRIORITYR, GICR_WAKER,
    GICR_IGROUPR0, GICR_ISENABLER0, GICR_ICENABLER0, GICD_BASE, GICR_BASE]

-- ==================== C5 ====================

/-- C5: for every SGI id in [0,15] and every register state, immediately
after `enable_sgi(sgi_id)` the call `is_sgi_enabled(sgi_id)` returns true,
and immediately after `disable_sgi(sgi_id)` it returns false. -/
theorem Gic.enable_disable_sgi_roundtrip (s : GicState) (sgi_id : Nat) (h : sgi_id ≤ 15) :
    Gic.is_sgi_enabled sgi_id (Gic.enable_sgi sgi_id s).1 = true ∧
    Gic.is_sgi_enabled sgi_id (Gic.disable_sgi sgi_id s).1 = false := by
  have hng : ¬ sgi_id > 15 := by omega
  constructor
  · simp only [Gic.is_sgi_enabled, Gic.enable_sgi, if_neg hng,
      readReg_isenabler, writeReg_isenabler]
    rw [decide_eq_true_eq, and_one_shift_ne_zero]
    simp [Nat.testBit_or, Nat.testBit_shiftLeft]
  · simp only [Gic.is_sgi_enabled, Gic.disable_sgi, if_neg hng,
      readReg_isenabler, writeReg_icenabler]
    rw [decide_eq_false_iff_not]
    intro hne
    exact hne (and_one_shift_eq_zero _ _ (and_mask32_clear_testBit _ _ (by omega)))

/-- Witness for C5 at `sgi_id = 0` on the all-zero state. -/
theorem Gic.enable_disable_sgi_roundtrip_witness :
    Gic.is_sgi_enabled 0 (Gic.enable_sgi 0 zeroState).1 = true ∧
    Gic.is_sgi_enabled 0 (Gic.disable_sgi 0 zeroState).1 = false :=
  Gic.enable_disable_sgi_roundtrip zeroState 0 (by decide)

-- ==================== C6 ====================

/-- C6: for every id > 15, `enable_sgi`, `disable_sgi`, `clear_sgi_pending`,
`set_sgi_priority` and `send_sgi` return as no-ops performing no register
access (empty event trace, state returned unchanged, no SGI word issued),
so the state of every valid id in [0,15] is unperturbed. -/
theorem Gic.out_of_range_sgi_ops_noop (s : GicState)
    (sgi_id priority target_list filter : Nat) (h : sgi_id > 15) :
    Gic.enable_sgi sgi_id s = (s, []) ∧
    Gic.disable_sgi sgi_id s = (s, []) ∧
    Gic.clear_sgi_pending sgi_id s = (s, []) ∧
    Gic.set_sgi_priority sgi_id priority s = (s, []) ∧
    Gic.send_sgi sgi_id target_list filter = none := by
  simp [Gic.enable_sgi, Gic.disable_sgi, Gic.clear_sgi_pending,
    Gic.set_sgi_priority, Gic.send_sgi, h]

/-- Witness for C6 at `sgi_id = 16`. -/
theorem Gic.out_of_range_sgi_ops_noop_witness :
    Gic.enable_sgi 16 zeroState = (zeroState, []) ∧
    Gic.disable_sgi 16 zeroState = (zeroState, []) ∧
    Gic.clear_sgi_pending 16 zeroState = (zeroState, []) ∧
    Gic.set_sgi_priority 16 7 zeroState = (zeroState, []) ∧
    Gic.send_sgi 16 3 0 = none :=
  Gic.out_of_range_sgi_ops_noop zeroState 16 7 3 0 (by decide)

-- ==================== C8 ====================

/-- C8: `get_num_interrupts()` computes the number of implemented
interrupt lines from the distributor type register as
`((typer & 0x1F) + 1) * 32`; for a type-register value of 0x00000003 it
returns 128. -/
theorem Gic.get_num_interrupts_formula (s : GicState) :
    Gic.get_num_interrupts s = ((s.gicdTyper &&& 0x1F) + 1) * 32 ∧
    (s.gicdTyper = 3 → Gic.get_num_interrupts s = 128) := by
  refine ⟨by simp [Gic.get_num_interrupts, Gic.read_typer, readReg_typer], fun h => ?_⟩
  simp only [Gic.get_num_interrupts, Gic.read_typer, readReg_typer, h]
  decide

/-- A register state whose distributor type register reads 0x00000003. -/
def typer3State : GicState := { zeroState with gicdTyper := 3 }

/-- Witness for C8 on a state with `GICD_TYPER = 3`. -/
theorem Gic.get_num_interrupts_formula_witness :
    Gic.get_num_interrupts typer3State = 128 :=
  (Gic.get_num_interrupts_formula typer3State).2 rfl

-- ==================== C2 ====================

/-- A register state in which SGI 0 is enabled and pending. -/
def sgi0LiveState : GicState := { zeroState with gicrEnable := 1, gicrPending := 1 }

/-- C2: on a state with SGI 0 enabled and pending, the driver's
`clear_pending_sgi` (the source's pending-clear routine at
src/gic.rs lines 350-361) performs a single write to `GICR_ICENABLER0`
(SGI-frame offset 0x0180, the enable-clear register) rather than the
pending-clear register at offset 0x0280: afterwards SGI 0 is disabled
and still pending.  The sibling routine `clear_sgi_pending`
(lines 279-287) does write the pending-clear register and leaves the
enable bit unchanged, so the claim fails for `clear_pending_sgi`. -/
theorem Gic.clear_pending_sgi_writes_enable_clear :
    (Gic.clear_pending_sgi 0 sgi0LiveState).2 = [Ev.wr GICR_ICENABLER0 1] ∧
    Gic.is_sgi_enabled 0 (Gic.clear_pending_sgi 0 sgi0LiveState).1 = false ∧
    (Gic.clear_pending_sgi 0 sgi0LiveState).1.gicrPending = 1 ∧
    (Gic.clear_sgi_pending 0 sgi0LiveState).2 = [Ev.wr GICR_ICPENDR0 1] ∧
    (Gic.clear_sgi_pending 0 sgi0LiveState).1.gicrPending = 0 ∧
    Gic.is_sgi_enabled 0 (Gic.clear_sgi_pending 0 sgi0LiveState).1 = true := by
  decide

-- ==================== C9 ====================

/-- C9: sending an SGI in self mode does not target the issuing core.
`send_sgi(2, 0, SGI_TARGET_SELF)` (the source doc comment's own example
of sending SGI 2 to self) issues the word `2 << 24`: the 16-bit target
mask is 0, so no core at all is addressed, and no routing-mode bit is
set.  `send_sgi_to_self(5)` issues a word whose target mask is the
hard-coded value 1 (core 0), with no dependence on the executing core
(its embedding takes no core parameter, mirroring the source). -/
theorem Gic.send_sgi_self_mode_misroutes :
    Gic.send_sgi 2 0 SGI_TARGET_SELF = some (2 <<< 24, 0) ∧
    (2 <<< 24) &&& 0xFFFF = 0 ∧
    Nat.testBit (2 <<< 24) 24 = false ∧
    Gic.send_sgi_to_self 5 = some (1 ||| (5 <<< 24), 0) ∧
    (1 ||| (5 <<< 24)) &&& 0xFFFF = 1 := by
  decide

-- ==================== C3 counterexample ====================

/-- C3 counterexample: `send_sgi(5, target-list = {core 2})` issues the
word `0x05000004` whose bit 24 — the bit the encoding uses as the
routing-mode (IRM) bit — is SET, not clear as the claim states, because
the id byte occupies bits 31:24 and id 5 has its least-significant bit
set. -/
theorem Gic.send_sgi_target_list_bit24_set :
    Gic.send_sgi 5 (1 <<< 2) SGI_TARGET_LIST = some (0x05000004, 0) ∧
    Nat.testBit 0x05000004 24 = true := by
  decide

-- ==================== C3 (amended) ====================

lemma pow_two_le_of_le {m i : Nat} (h : m ≤ i) : (2 : Nat) ^ m ≤ 2 ^ i :=
  Nat.pow_le_pow_right (by norm_num) h

lemma sgi_word_low16 (t id c : Nat) (ht : t < 65536) :
    (((c <<< 24) ||| t) ||| (id <<< 24)) &&& 0xFFFF = t := by
  refine Nat.eq_of_testBit_eq fun i => ?_
  have h16 : (0xFFFF : Nat) = 2 ^ 16 - 1 := by norm_num
  rw [h16]
  simp only [Nat.testBit_and, Nat.testBit_or, Nat.testBit_shiftLeft,
    Nat.testBit_two_pow_sub_one]
  by_cases hi : i < 16
  · have h24 : ¬ (i ≥ 24) := by omega
    simp [h24, hi]
  · have hp : (65536 : Nat) ≤ 2 ^ i := by
      calc (65536 : Nat) = 2 ^ 16 := by norm_num
        _ ≤ 2 ^ i := pow_two_le_of_le (by omega)
    have hti : t.testBit i = false := Nat.testBit_lt_two_pow (lt_of_lt_of_le ht hp)
    simp [hi, hti]

lemma sgi_word_top8 (t id c : Nat) (ht : t < 65536) (hid : id ≤ 15) (hc : c ≤ 1) :
    ((((c <<< 24) ||| t) ||| (id <<< 24)) >>> 24) &&& 0xFF = id ||| c := by
  refine Nat.eq_of_testBit_eq fun i => ?_
  have h8 : (0xFF : Nat) = 2 ^ 8 - 1 := by norm_num
  rw [h8]
  simp only [Nat.testBit_and, Nat.testBit_or, Nat.testBit_shiftRight,
    Nat.testBit_shiftLeft, Nat.testBit_two_pow_sub_one]
  by_cases hi : i < 8
  · have e1 : 24 + i ≥ 24 := by omega
    have e2 : 24 + i - 24 = i := by omega
    have hp : (65536 : Nat) ≤ 2 ^ (24 + i) := by
      calc (65536 : Nat) = 2 ^ 16 := by norm_num
        _ ≤ 2 ^ (24 + i) := pow_two_le_of_le (by omega)
    have hti : t.testBit (24 + i) = false := Nat.testBit_lt_two_pow (lt_of_lt_of_le ht hp)
    simp [e1, e2, hti, hi, Bool.or_comm]
  · have hp : (256 : Nat) ≤ 2 ^ i := by
      calc (256 : Nat) = 2 ^ 8 := by norm_num
        _ ≤ 2 ^ i := pow_two_le_of_le (by omega)
    have h1 : id.testBit i = false := Nat.testBit_lt_two_pow (by omega)
    have h2 : c.testBit i = false := Nat.testBit_lt_two_pow (by omega)
    simp [hi, h1, h2]

lemma sgi_word_bit24 (t id c : Nat) (ht : t < 65536) :
    (((c <<< 24) ||| t) ||| (id <<< 24)).testBit 24 = (c.testBit 0 || id.testBit 0) := by
  have hp : (65536 : Nat) ≤ 2 ^ 24 := by norm_num
  have hti : t.testBit 24 = false := Nat.testBit_lt_two_pow (lt_of_lt_of_le ht hp)
  simp [Nat.testBit_or, Nat.testBit_shiftLeft, hti]

/-- C3 (amended): `send_sgi(id, targets, filter)` with a valid id issues a
single routing word (upper affinity word fixed at 0) whose low 16 bits are
the target mask and whose top byte is the SGI id ORed with the
routing-mode contribution (1 exactly for the all-except-self filter).
Because the id byte occupies bits 31:24 while the routing-mode (IRM) bit
is bit 24, the two alias: the word's bit 24 equals the id's
least-significant bit OR the all-except-self flag — it is NOT clear in
target-list mode whenever the id is odd. -/
theorem Gic.send_sgi_word_encoding (sgi_id target_list filter : Nat)
    (hid : sgi_id ≤ 15) (ht : target_list < 65536) :
    (Gic.send_sgi sgi_id target_list filter).isSome = true ∧
    ((Gic.send_sgi sgi_id target_list filter).getD (0, 0)).2 = 0 ∧
    ((Gic.send_sgi sgi_id target_list filter).getD (0, 0)).1 &&& 0xFFFF = target_list ∧
    (((Gic.send_sgi sgi_id target_list filter).getD (0, 0)).1 >>> 24) &&& 0xFF
      = sgi_id ||| (if filter = SGI_TARGET_ALL_EXCEPT_SELF then 1 else 0) ∧
    (((Gic.send_sgi sgi_id target_list filter).getD (0, 0)).1).testBit 24
      = (sgi_id.testBit 0 || decide (filter = SGI_TARGET_ALL_EXCEPT_SELF)) := by
  have hng : ¬ sgi_id > 15 := by omega
  simp only [Gic.send_sgi, if_neg hng, Option.isSome_some, Option.getD_some]
  by_cases hf : filter = SGI_TARGET_ALL_EXCEPT_SELF
  · refine ⟨trivial, trivial, ?_, ?_, ?_⟩
    · simpa [hf] using sgi_word_low16 target_list sgi_id 1 ht
    · simpa [hf] using sgi_word_top8 target_list sgi_id 1 ht hid (by omega)
    · simpa [hf] using sgi_word_bit24 target_list sgi_id 1 ht
  · refine ⟨trivial, trivial, ?_, ?_, ?_⟩
    · simpa [hf] using sgi_word_low16 target_list sgi_id 0 ht
    · simpa [hf] using sgi_word_top8 target_list sgi_id 0 ht hid (by omega)
    · simpa [hf] using sgi_word_bit24 target_list sgi_id 0 ht

/-- Witness for C3 at `send_sgi(5, target mask 4, target-list filter)`. -/
theorem Gic.send_sgi_word_encoding_witness :
    (Gic.send_sgi 5 4 SGI_TARGET_LIST).isSome = true ∧
    ((Gic.send_sgi 5 4 SGI_TARGET_LIST).getD (0, 0)).2 = 0 ∧
    ((Gic.send_sgi 5 4 SGI_TARGET_LIST).getD (0, 0)).1 &&& 0xFFFF = 4 ∧
    (((Gic.send_sgi 5 4 SGI_TARGET_LIST).getD (0, 0)).1 >>> 24) &&& 0xFF
      = 5 ||| (if SGI_TARGET_LIST = SGI_TARGET_ALL_EXCEPT_SELF then 1 else 0) ∧
    (((Gic.send_sgi 5 4 SGI_TARGET_LIST).getD (0, 0)).1).testBit 24
      = (Nat.testBit 5 0 || decide (SGI_TARGET_LIST = SGI_TARGET_ALL_EXCEPT_SELF)) :=
  Gic.send_sgi_word_encoding 5 4 SGI_TARGET_LIST (by decide) (by decide)

-- ==================== C7 ====================

/-- Byte lane `j` (0-3) of a 32-bit priority register value: the
priority of the id occupying byte `j` of that register. -/
def laneOf (w j : Nat) : Nat := (w >>> (j * 8)) &&& 0xFF

lemma lane_update_same (cur p k : Nat) (hp : p < 256) (hk : k < 4) :
    laneOf ((cur &&& (0xFFFFFFFF ^^^ (0xFF <<< (k * 8)))) ||| (p <<< (k * 8))) k = p := by
  refine Nat.eq_of_testBit_eq fun i => ?_
  have h8 : (0xFF : Nat) = 2 ^ 8 - 1 := by norm_num
  have h32 : (0xFFFFFFFF : Nat) = 2 ^ 32 - 1 := by norm_num
  rw [laneOf, h8, h32]
  simp only [Nat.testBit_and, Nat.testBit_or, Nat.testBit_xor, Nat.testBit_shiftRight,
    Nat.testBit_shiftLeft, Nat.testBit_two_pow_sub_one]
  by_cases hi : i < 8
  · have e1 : k * 8 + i ≥ k * 8 := by omega
    have e2 : k * 8 + i - k * 8 = i := by omega
    have e3 : k * 8 + i < 32 := by omega
    simp [e1, e2, e3, hi]
  · have hp2 : (256 : Nat) ≤ 2 ^ i := by
      calc (256 : Nat) = 2 ^ 8 := by norm_num
        _ ≤ 2 ^ i := pow_two_le_of_le (by omega)
    have hpb : p.testBit i = false := Nat.testBit_lt_two_pow (by omega)
    simp [hi, hpb]

lemma lane_update_other (cur p k j : Nat) (hp : p < 256) (hk : k < 4) (hj : j < 4)
    (hne : j ≠ k) :
    laneOf ((cur &&& (0xFFFFFFFF ^^^ (0xFF <<< (k * 8)))) ||| (p <<< (k * 8))) j
      = laneOf cur j := by
  refine Nat.eq_of_testBit_eq fun i => ?_
  have h8 : (0xFF : Nat) = 2 ^ 8 - 1 := by norm_num
  have h32 : (0xFFFFFFFF : Nat) = 2 ^ 32 - 1 := by norm_num
  rw [laneOf, laneOf, h8, h32]
  simp only [Nat.testBit_and, Nat.testBit_or, Nat.testBit_xor, Nat.testBit_shiftRight,
    Nat.testBit_shiftLeft, Nat.testBit_two_pow_sub_one]
  by_cases hi : i < 8
  · rcases Nat.lt_or_ge j k with hlt | hge
    · have e1 : ¬ (j * 8 + i ≥ k * 8) := by omega
      have e3 : j * 8 + i < 32 := by omega
      simp [e1, e3, hi]
    · have hgt : k < j := by omega
      have e1 : j * 8 + i ≥ k * 8 := by omega
      have e2 : ¬ (j * 8 + i - k * 8 < 8) := by omega
      have e3 : j * 8 + i < 32 := by omega
      have hp2 : (256 : Nat) ≤ 2 ^ (j * 8 + i - k * 8) := by
        calc (256 : Nat) = 2 ^ 8 := by norm_num
          _ ≤ 2 ^ (j * 8 + i - k * 8) := pow_two_le_of_le (by omega)
      have hpb : p.testBit (j * 8 + i - k * 8) = false := Nat.testBit_lt_two_pow (by omega)
      simp [e1, e2, e3, hi, hpb]
  · simp [hi]

lemma set_sgi_priority_reg (s : GicState) (sgi_id p : Nat) (hid : sgi_id ≤ 15) :
    (Gic.set_sgi_priority sgi_id p s).1.gicrPriority (sgi_id / 4)
      = (s.gicrPriority (sgi_id / 4) &&& (0xFFFFFFFF ^^^ (0xFF <<< ((sgi_id % 4) * 8))))
        ||| (p <<< ((sgi_id % 4) * 8)) := by
  interval_cases sgi_id <;>
    simp [Gic.set_sgi_priority, writeReg, readReg, GICD_CTLR, GICD_IGROUPR0, GICD_TYPER,
      GICD_IPRIORITYR, GICR_WAKER, GICR_IGROUPR0, GICR_ISENABLER0, GICR_ICENABLER0,
      GICR_ICPENDR0, GICR_IPRIORITYR, GICD_BASE, GICR_BASE]

/-- C7: for every SGI id in [0,15] and every priority p < 256,
`set_sgi_priority(sgi_id, p)` stores p in byte lane `sgi_id % 4` of
redistributor priority register `sgi_id / 4`, and the other three byte
lanes of that register keep their previous values (round-trip in the
correct lane, no cross-talk). -/
theorem Gic.set_sgi_priority_lane_roundtrip (s : GicState) (sgi_id priority : Nat)
    (hid : sgi_id ≤ 15) (hp : priority < 256) :
    laneOf ((Gic.set_sgi_priority sgi_id priority s).1.gicrPriority (sgi_id / 4)) (sgi_id % 4)
      = priority ∧
    ∀ j < 4, j ≠ sgi_id % 4 →
      laneOf ((Gic.set_sgi_priority sgi_id priority s).1.gicrPriority (sgi_id / 4)) j
        = laneOf (s.gicrPriority (sgi_id / 4)) j := by
  rw [set_sgi_priority_reg s sgi_id priority hid]
  constructor
  · exact lane_update_same _ priority (sgi_id % 4) hp (Nat.mod_lt _ (by norm_num))
  · intro j hj hne
    exact lane_update_other _ priority (sgi_id % 4) j hp (Nat.mod_lt _ (by norm_num)) hj hne

/-- A register state whose priority registers hold a recognizable
byte pattern. -/
def prioPatternState : GicState := { zeroState with gicrPriority := fun _ => 0x11223344 }

/-- Witness for C7 at `sgi_id = 5`, `priority = 0x42`. -/
theorem Gic.set_sgi_priority_lane_roundtrip_witness :
    laneOf ((Gic.set_sgi_priority 5 0x42 prioPatternState).1.gicrPriority (5 / 4)) (5 % 4)
      = 0x42 ∧
    ∀ j < 4, j ≠ 5 % 4 →
      laneOf ((Gic.set_sgi_priority 5 0x42 prioPatternState).1.gicrPriority (5 / 4)) j
        = laneOf (prioPatternState.gicrPriority (5 / 4)) j :=
  Gic.set_sgi_priority_lane_roundtrip prioPatternState 5 0x42 (by decide) (by decide)

-- ==================== Init trace lemmas ====================

lemma append_split5 {α : Type} (A B C D : List α) (x y z : α) :
    A ++ (x :: y :: (B ++ (C ++ (D ++ [z])))) = (A ++ (x :: y :: (B ++ (C ++ D)))) ++ [z] := by
  simp [List.append_assoc]

lemma append_split4 {α : Type} (A B C T : List α) (x y : α) :
    A ++ (x :: y :: (B ++ (C ++ T))) = (A ++ (x :: y :: (B ++ C))) ++ T := by
  simp [List.append_assoc]

lemma spinWait_events {ws : List Nat} {evs : List Ev} {rest : List Nat}
    (h : Gic.spinWait ws = some (evs, rest)) :
    ∀ e ∈ evs, ∃ w, e = Ev.rd GICR_WAKER w := by
  induction ws generalizing evs rest with
  | nil => simp [Gic.spinWait] at h
  | cons w ws ih =>
    simp only [Gic.spinWait] at h
    by_cases hw : w &&& GICR_WAKER_CHILDREN_ASLEEP ≠ 0
    · rw [if_pos hw] at h
      rcases hsp : Gic.spinWait ws with _ | ⟨evs0, rest0⟩
      · rw [hsp] at h; simp at h
      · rw [hsp] at h
        simp only [Option.some.injEq, Prod.mk.injEq] at h
        obtain ⟨he, -⟩ := h
        subst he
        intro e hme
        rcases List.mem_cons.1 hme with rfl | hmem
        · exact ⟨w, rfl⟩
        · exact ih hsp e hmem
    · rw [if_neg hw] at h
      simp only [Option.some.injEq, Prod.mk.injEq] at h
      obtain ⟨he, -⟩ := h
      subst he
      intro e hme
      simp only [List.mem_singleton] at hme
      subst hme
      exact ⟨w, rfl⟩

lemma spinWait_observes_clear {ws : List Nat} {evs : List Ev} {rest : List Nat}
    (h : Gic.spinWait ws = some (evs, rest)) :
    ∃ e ∈ evs, isWakeClearRead e = true := by
  induction ws generalizing evs rest with
  | nil => simp [Gic.spinWait] at h
  | cons w ws ih =>
    simp only [Gic.spinWait] at h
    by_cases hw : w &&& GICR_WAKER_CHILDREN_ASLEEP ≠ 0
    · rw [if_pos hw] at h
      rcases hsp : Gic.spinWait ws with _ | ⟨evs0, rest0⟩
      · rw [hsp] at h; simp at h
      · rw [hsp] at h
        simp only [Option.some.injEq, Prod.mk.injEq] at h
        obtain ⟨he, -⟩ := h
        subst he
        obtain ⟨e, hm, hc⟩ := ih hsp
        exact ⟨e, List.mem_cons_of_mem _ hm, hc⟩
    · rw [if_neg hw] at h
      simp only [Option.some.injEq, Prod.mk.injEq] at h
      obtain ⟨he, -⟩ := h
      subst he
      refine ⟨Ev.rd GICR_WAKER w, List.mem_singleton_self _, ?_⟩
      simp only [isWakeClearRead, decide_eq_true_eq]
      exact ⟨trivial, not_ne_iff.mp hw⟩

lemma initDist_no_enable (s : GicState) :
    ∀ e ∈ (Gic.initDist s).2, isDistEnableWrite e = false := by
  intro e he
  simp only [Gic.initDist, List.mem_cons, List.not_mem_nil, or_false] at he
  rcases he with rfl | rfl | rfl | rfl | rfl | rfl | rfl <;>
    simp [isDistEnableWrite, GICD_CTLR, GICD_IGROUPR0, GICD_IPRIORITYR, GICD_BASE]

lemma initRedist_no_enable (s : GicState) :
    ∀ e ∈ (Gic.initRedist s).2, isDistEnableWrite e = false := by
  intro e he
  simp only [Gic.initRedist, List.mem_cons, List.not_mem_nil, or_false] at he
  rcases he with rfl | rfl | rfl | rfl | rfl | rfl | rfl | rfl | rfl | rfl | rfl | rfl <;>
    simp [isDistEnableWrite, GICD_CTLR, GICR_IGROUPR0, GICR_ISENABLER0, GICR_IPRIORITYR,
      GICD_BASE, GICR_BASE]

lemma cpuIfEvents_no_enable : ∀ e ∈ Gic.cpuIfEvents, isDistEnableWrite e = false := by
  decide

lemma writeReg_gicd_ctlr (s : GicState) (v : Nat) :
    writeReg s GICD_CTLR v = { s with gicdCtlr := v } := by
  simp [writeReg, GICD_CTLR, GICD_BASE]

lemma initRedist_enable (s : GicState) :
    (Gic.initRedist s).1.gicrEnable = (s.gicrEnable ||| 0xFFFFFFFF) ||| (1 <<< (30 % 32)) := by
  simp [Gic.initRedist, writeReg, readReg, GICD_CTLR, GICD_IGROUPR0, GICD_TYPER,
    GICD_IPRIORITYR, GICR_WAKER, GICR_IGROUPR0, GICR_ISENABLER0, GICR_ICENABLER0,
    GICR_ICPENDR0, GICR_IPRIORITYR, GICD_BASE, GICR_BASE]

lemma init_final_enable (X : GicState) (v : Nat) :
    (writeReg (Gic.initRedist X).1 GICD_CTLR v).gicrEnable
      = (X.gicrEnable ||| 0xFFFFFFFF) ||| (1 <<< (30 % 32)) := by
  simp [writeReg_gicd_ctlr, initRedist_enable]

lemma initRedist_mem_enable_all (X : GicState) :
    Ev.wr GICR_ISENABLER0 0xFFFFFFFF ∈ (Gic.initRedist X).2 := by
  simp [Gic.initRedist]

-- ==================== C10 ====================

/-- C10: `init` writes 0xFFFF_FFFF to the redistributor set-enable
register, so after every successful initialization all 32 private
interrupt ids 0-31 have their enable bit set (low 32 bits of the enable
array all ones). -/
theorem Gic.init_enables_all_private_interrupts (s : GicState) (ws : List Nat)
    (sf : GicState) (tr : List Ev) (h : Gic.init s ws = some (sf, tr)) :
    sf.gicrEnable &&& 0xFFFFFFFF = 0xFFFFFFFF ∧
    Ev.wr GICR_ISENABLER0 0xFFFFFFFF ∈ tr := by
  cases ws with
  | nil => simp [Gic.init] at h
  | cons w0 ws1 =>
    simp only [Gic.init] at h
    rcases hsp : Gic.spinWait ws1 with _ | ⟨sevs, rest⟩
    · rw [hsp] at h; simp at h
    · rw [hsp] at h
      simp only [Option.some.injEq, Prod.mk.injEq] at h
      obtain ⟨hsf, htr⟩ := h
      subst hsf
      subst htr
      constructor
      · rw [init_final_enable]
        exact or_mask32_saturate _ _
      · exact List.mem_append.2 (Or.inr (List.mem_cons_of_mem _ (List.mem_cons_of_mem _
          (List.mem_append.2 (Or.inr (List.mem_append.2
            (Or.inl (initRedist_mem_enable_all _))))))))

/-- Witness for C10: a concrete successful run of `init`. -/
theorem Gic.init_enables_all_private_interrupts_witness :
    ((Gic.init zeroState [0, 0]).getD (zeroState, [])).1.gicrEnable &&& 0xFFFFFFFF
      = 0xFFFFFFFF ∧
    Ev.wr GICR_ISENABLER0 0xFFFFFFFF ∈ ((Gic.init zeroState [0, 0]).getD (zeroState, [])).2 :=
  Gic.init_enables_all_private_interrupts zeroState [0, 0] _ _ rfl

-- ==================== C1 ====================

/-- C1: in every terminating execution of `Gic::init` (any starting
register state, any device-supplied waker read sequence) the trace's
last event is the distributor global-enable write (GRP0|GRP1 to
`GICD_CTLR`), no other event of the trace writes a nonzero value to
`GICD_CTLR`, and a read of `GICR_WAKER` observing the children-asleep
bit clear occurs strictly before the enable write. -/
theorem Gic.init_distributor_enable_last (s : GicState) (ws : List Nat)
    (sf : GicState) (tr : List Ev) (h : Gic.init s ws = some (sf, tr)) :
    tr.getLast? = some (Ev.wr GICD_CTLR (GICD_CTLR_ENABLE_GRP0 ||| GICD_CTLR_ENABLE_GRP1)) ∧
    (∀ e ∈ tr.dropLast, isDistEnableWrite e = false) ∧
    ∃ e ∈ tr.dropLast, isWakeClearRead e = true := by
  cases ws with
  | nil => simp [Gic.init] at h
  | cons w0 ws1 =>
    simp only [Gic.init] at h
    rcases hsp : Gic.spinWait ws1 with _ | ⟨sevs, rest⟩
    · rw [hsp] at h; simp at h
    · rw [hsp] at h
      simp only [Option.some.injEq, Prod.mk.injEq] at h
      obtain ⟨-, htr⟩ := h
      subst htr
      rw [append_split5]
      refine ⟨List.getLast?_concat _, ?_, ?_⟩
      · intro e he
        rw [List.dropLast_concat] at he
        rcases List.mem_append.1 he with h1 | h2
        · exact initDist_no_enable s e h1
        · rcases List.mem_cons.1 h2 with rfl | h3
          · rfl
          · rcases List.mem_cons.1 h3 with rfl | h4
            · simp [isDistEnableWrite, GICR_WAKER, GICD_CTLR, GICR_BASE, GICD_BASE]
            · rcases List.mem_append.1 h4 with h5 | h6
              · obtain ⟨w, rfl⟩ := spinWait_events hsp e h5
                rfl
              · rcases List.mem_append.1 h6 with h7 | h8
                · exact initRedist_no_enable _ e h7
                · exact cpuIfEvents_no_enable e h8
      · rw [List.dropLast_concat]
        obtain ⟨e, hm, hc⟩ := spinWait_observes_clear hsp
        refine ⟨e, List.mem_append.2 (Or.inr ?_), hc⟩
        exact List.mem_cons_of_mem _ (List.mem_cons_of_mem _ (List.mem_append.2 (Or.inl hm)))

/-- Witness for C1: a concrete successful run of `init`. -/
theorem Gic.init_distributor_enable_last_witness :
    ((Gic.init zeroState [0, 0]).getD (zeroState, [])).2.getLast?
      = some (Ev.wr GICD_CTLR (GICD_CTLR_ENABLE_GRP0 ||| GICD_CTLR_ENABLE_GRP1)) ∧
    (∀ e ∈ ((Gic.init zeroState [0, 0]).getD (zeroState, [])).2.dropLast,
      isDistEnableWrite e = false) ∧
    ∃ e ∈ ((Gic.init zeroState [0, 0]).getD (zeroState, [])).2.dropLast,
      isWakeClearRead e = true :=
  Gic.init_distributor_enable_last zeroState [0, 0] _ _ rfl

-- ==================== C4 (amended) ====================

/-- The fixed tail of every `init` trace: the CPU-interface
configuration instructions followed by the distributor enable write. -/
def cpuTail : List Ev :=
  Gic.cpuIfEvents ++ [Ev.wr GICD_CTLR (GICD_CTLR_ENABLE_GRP0 ||| GICD_CTLR_ENABLE_GRP1)]

/-- `isSubseqOf l m` decides whether `l` occurs, in order, as a (not
necessarily contiguous) subsequence of `m`. -/
def isSubseqOf : List Ev → List Ev → Bool
  | [], _ => true
  | _ :: _, [] => false
  | a :: l, b :: m => if a = b then isSubseqOf l m else isSubseqOf (a :: l) m

/-- C4 (amended): every terminating execution of `init` ends with the
fixed event sequence `cpuTail`, which contains — in this order, as a
subsequence — (a) the system-register-access enable write (ICC_SRE,
`c12,c12,5`, value 7), (b) a priority-mask write of 0xFF, (c) a group-1
delivery-enable write, and (d) an EOImode-0 control write; but the
sequence is performed redundantly and NOT every interrupt-visible write
in it is immediately followed by a barrier (see the counterexample). -/
theorem Gic.init_cpu_interface_tail (s : GicState) (ws : List Nat)
    (sf : GicState) (tr : List Ev) (h : Gic.init s ws = some (sf, tr)) :
    tr.drop (tr.length - cpuTail.length) = cpuTail ∧
    isSubseqOf
      [Ev.sysw 12 12 5 0x7, Ev.sysw 4 6 0 0xFF, Ev.sysw 12 12 7 1, Ev.sysw 12 12 4 0]
      cpuTail = true := by
  refine ⟨?_, by decide⟩
  cases ws with
  | nil => simp [Gic.init] at h
  | cons w0 ws1 =>
    simp only [Gic.init] at h
    rcases hsp : Gic.spinWait ws1 with _ | ⟨sevs, rest⟩
    · rw [hsp] at h; simp at h
    · rw [hsp] at h
      simp only [Option.some.injEq, Prod.mk.injEq] at h
      obtain ⟨-, htr⟩ := h
      subst htr
      rw [show Gic.cpuIfEvents ++ [Ev.wr GICD_CTLR (GICD_CTLR_ENABLE_GRP0 ||| GICD_CTLR_ENABLE_GRP1)] = cpuTail from rfl,
        append_split4, List.length_append, Nat.add_sub_cancel, List.drop_left]

/-- Witness for C4: a concrete successful run of `init`. -/
theorem Gic.init_cpu_interface_tail_witness :
    ((Gic.init zeroState [0, 0]).getD (zeroState, [])).2.drop
        (((Gic.init zeroState [0, 0]).getD (zeroState, [])).2.length - cpuTail.length)
      = cpuTail ∧
    isSubseqOf
      [Ev.sysw 12 12 5 0x7, Ev.sysw 4 6 0 0xFF, Ev.sysw 12 12 7 1, Ev.sysw 12 12 4 0]
      cpuTail = true :=
  Gic.init_cpu_interface_tail zeroState [0, 0] _ _ rfl

/-- C4 counterexample: in the concrete run `init zeroState [0, 0]` the
write that enables system-register access (ICC_SRE, `c12,c12,5`, event
index 30 of the trace) is immediately followed by a priority-mask write
(ICC_PMR, `c4,c6,0`), not by a synchronization barrier, refuting the
claim that every interrupt-visible write of the sequence is immediately
followed by a barrier. -/
theorem Gic.init_sre_write_not_followed_by_barrier :
    ((Gic.init zeroState [0, 0]).getD (zeroState, [])).2.get? 30
      = some (Ev.sysw 12 12 5 0x7) ∧
    ((Gic.init zeroState [0, 0]).getD (zeroState, [])).2.get? 31
      = some (Ev.sysw 4 6 0 0xFF) ∧
    Ev.sysw 4 6 0 0xFF ≠ Ev.isb := by
  decide
